import Mathlib

/-!
Shallow embedding of the back-in-stock notification reconciliation pipeline
(src/app/api/subscribers/route.js and the earlier route variants in
src/unnamed/part_001 and src/unnamed/part_002), together with theorems
settling the specification claims about it.

Conventions of the embedding:
- JavaScript strings are Lean `String`; a value that may be `null` is an
  `Option String` (`none` = `null`); JavaScript string falsiness (`null`,
  `undefined`, the empty string) is `jsFalsyStr`.
- A date-valued field (event properties such as `SignupDate`, alert
  `datetime`) is an `SDate`: `absent` models `null` (which `new Date`
  turns into the epoch), `parseable t` models a string parsing to the
  millisecond timestamp `t : Int`, and `unparseable` models a string whose
  parse is an invalid date (`NaN`). `jsDateOf` is `new Date(x).getTime()`
  as an `Option Int` with `none` for `NaN`.
- Network calls are oracles packed into an `Env`: each returns `none` for
  a failed or non-success response, mirroring the `!res.ok`/catch paths.
-/

/-- Truthiness of a JavaScript string-or-null value: `null` and `""` are falsy. -/
def jsFalsyStr : Option String → Bool
  | none => true
  | some s => s.isEmpty

/-- A date-valued input as seen by `new Date(...)`: a missing value, a string
parsing to a concrete millisecond timestamp, or an unparseable string. -/
inductive SDate where
  | absent
  | parseable (t : Int)
  | unparseable
  deriving DecidableEq, Repr

/-- The value of `new Date(x).getTime()`: `none` is `NaN` (invalid date);
`new Date(null)` is the epoch. -/
def jsDateOf : SDate → Option Int
  | .absent => some 0
  | .parseable t => some t
  | .unparseable => none

/-- JavaScript `>` on two date values; any comparison involving `NaN` is false. -/
def jsDateGt : Option Int → Option Int → Bool
  | some x, some y => y < x
  | _, _ => false

/-- JavaScript `<` on two date values; any comparison involving `NaN` is false. -/
def jsDateLt : Option Int → Option Int → Bool
  | some x, some y => x < y
  | _, _ => false

/-- `str.split('/')` on the character list: split at every slash, keeping
empty segments, never returning an empty list. -/
def splitSlash : List Char → List (List Char)
  | [] => [[]]
  | c :: rest =>
    let r := splitSlash rest
    if c = '/' then [] :: r
    else
      match r with
      | [] => [[c]]
      | s :: ss => (c :: s) :: ss

/-- `str.split('/').pop()`: the segment after the last slash. -/
def lastSeg (s : String) : String := ⟨(splitSlash s.data).getLastD []⟩

/-- JavaScript `hay.includes(needle)` as substring containment. -/
def strContains (hay needle : String) : Bool :=
  hay.data.tails.any (fun t => needle.data.isPrefixOf t)

/-- Map a character function over a string. -/
def mapStr (f : Char → Char) (s : String) : String := ⟨s.data.map f⟩

/-- Per-character quote normalization: the four curly or low single-quote
code points become a straight apostrophe, the four double-quote variants a
straight double quote. -/
def normQChar (c : Char) : Char :=
  if c = '‘' ∨ c = '’' ∨ c = '‚' ∨ c = '‛' then '\''
  else if c = '“' ∨ c = '”' ∨ c = '„' ∨ c = '‟' then '"'
  else c

/-- `normalizeQuotes` from the route: replace curly and low quotes by
straight ones. -/
def normalizeQuotes (s : String) : String := mapStr normQChar s

/-- `str.toLowerCase()` restricted to the ASCII range, matching what the
classifier needs. -/
def jsToLower (s : String) : String := mapStr Char.toLower s

/-- `normalizeProductId` from the route: `null` stays `null` (also for a
falsy empty string), a string containing `gid://` is cut down to the
segment after its last slash, any other string is returned unchanged. -/
def normalizeProductId (id : Option String) : Option String :=
  match id with
  | none => none
  | some s =>
    if s.isEmpty then none
    else if strContains s "gid://" then some (lastSeg s)
    else some s

/-- `isBisEmailSubject` from the route: lower-case and quote-normalize the
subject and preview, then test the fixed phrase disjunction. -/
def isBisEmailSubject (subject preview : String) : Bool :=
  let s := normalizeQuotes (jsToLower subject)
  let p := normalizeQuotes (jsToLower preview)
  strContains s "back in stock" ||
  strContains s "it's here" ||
  strContains s "ready to order" ||
  strContains s "now available" ||
  strContains s "in stock" ||
  strContains s "restock" ||
  strContains s "pre-order" ||
  strContains s "preorder" ||
  strContains p "back in stock" ||
  strContains p "now available" ||
  strContains p "in stock" ||
  strContains p "restock"

example : normalizeProductId (some "gid://shopify/Product/123") = some "123" := by decide
example : normalizeProductId (some "123") = some "123" := by decide
example : isBisEmailSubject "It’s Here!" "" = true := by decide
example : isBisEmailSubject "hello" "world" = false := by decide

/-- Strip a `gid://.../<n>` wrapper down to the trailing segment, as the
enrichment helpers do inline before querying the commerce system. -/
def stripGid (s : String) : String :=
  if strContains s "gid://" then lastSeg s else s

/-- A product variant as returned by the commerce product lookup:
`String(v.id)`, `v.sku` (possibly null or empty), and `v.inventory_quantity`
(possibly null). -/
structure Variant where
  id : String
  sku : Option String
  inventoryQuantity : Option Int
  deriving DecidableEq, Repr

/-- Payload of a successful commerce product lookup. -/
structure ProductPayload where
  variants : List Variant
  deriving DecidableEq, Repr

/-- A line item of a fetched order: `String(item.product_id)`. -/
structure LineItem where
  productId : String
  deriving DecidableEq, Repr

/-- A fetched order: its creation timestamp (commerce-system generated,
always a valid date) and its line items. -/
structure Order where
  createdAt : Int
  lineItems : List LineItem
  deriving DecidableEq, Repr

/-- The external-world oracle for one run: whether the commerce credentials
are configured, and the outcome of each commerce call, with `none` for a
thrown error or non-success response. -/
structure Env where
  shopifyConfigured : Bool
  ordersFor : String → Option (List Order)
  customersFor : String → Option String
  productFor : String → Option ProductPayload

/-- JavaScript `a || b` on string-or-null values: the first truthy operand,
else the value of the last. -/
def jsOrStr (a b : Option String) : Option String :=
  if jsFalsyStr a then b else a

/-- The sku chain `matchingSku || firstSku || null` of `getProductData`:
first truthy of the two, normalized to `null` when both are falsy. -/
def skuChain (matching first : Option String) : Option String :=
  if !jsFalsyStr matching then matching
  else if !jsFalsyStr first then first
  else none

/-- The variant id after `if (variantId and variantId.includes(gid))`:
a truthy gid-wrapped id is stripped, anything else passes unchanged. -/
def jsStripVariantId (variantId : Option String) : Option String :=
  match variantId with
  | none => none
  | some v => if !v.isEmpty && strContains v "gid://" then some (lastSeg v) else some v

/-- `getProductData(productId, variantId)` from the route: missing
configuration or product identifier, a thrown error, or a non-success
response all yield `{inventory: null, sku: null}`; on success the inventory
is the sum of the per-variant quantities (falsy quantities counting zero)
and the sku follows the `matchingVariant?.sku || variants[0]?.sku || null`
chain, with the matching variant looked up only for a truthy variant id. -/
def getProductData (env : Env) (productId variantId : Option String) :
    Option Int × Option String :=
  if !env.shopifyConfigured || jsFalsyStr productId then (none, none)
  else
    match productId with
    | none => (none, none)
    | some pid =>
      let numericId := stripGid pid
      let numericVariantId := jsStripVariantId variantId
      match env.productFor numericId with
      | none => (none, none)
      | some payload =>
        let variants := payload.variants
        let inventory := variants.foldl (fun acc v => acc + v.inventoryQuantity.getD 0) 0
        let firstSku := variants.head?.bind Variant.sku
        let sku :=
          if !jsFalsyStr numericVariantId then
            match numericVariantId with
            | some nv => skuChain ((variants.find? (fun v => v.id == nv)).bind Variant.sku) firstSku
            | none => skuChain none firstSku
          else skuChain none firstSku
        (some inventory, sku)

/-- `checkIfOrdered(email, productId, signupDate)` from the route: false on
missing configuration, email or product id, or on a failed order search;
otherwise true iff some order not created strictly before the signup time
(`null` signup date counting as the epoch, `NaN` comparisons false) has a
line item whose id equals the gid-stripped product id. -/
def checkIfOrdered (env : Env) (email : String) (productId : Option String)
    (signupDate : SDate) : Bool :=
  if !env.shopifyConfigured || email.isEmpty || jsFalsyStr productId then false
  else
    match productId with
    | none => false
    | some pid =>
      let numericProductId := stripGid pid
      match env.ordersFor email with
      | none => false
      | some orders =>
        let signupTime : Option Int :=
          match signupDate with
          | .absent => some 0
          | .parseable t => some t
          | .unparseable => none
        orders.any (fun o =>
          !jsDateLt (some o.createdAt) signupTime &&
          o.lineItems.any (fun it => it.productId == numericProductId))

/-- `getShopifyCustomerId(email)` from the route: null on missing
configuration or email, a failed search, or an empty result. -/
def getShopifyCustomerId (env : Env) (email : String) : Option String :=
  if !env.shopifyConfigured || email.isEmpty then none
  else env.customersFor email

/-- One grouped signup event, as built by `getSignupEvents`: every field is
`props.X || null` (so never `some ""`), the signup date is
`props.SignupDate || event.attributes?.datetime || null`. -/
structure Signup where
  productId : Option String
  productHandle : Option String
  variantId : Option String
  productTitle : Option String
  productUrl : Option String
  productImage : Option String
  signupDate : SDate
  deriving DecidableEq, Repr

/-- One alert signal, from either the dedicated alert metric (with a
product id) or a classified received-email event (product id null). -/
structure AlertSignal where
  productId : Option String
  date : SDate
  deriving DecidableEq, Repr

/-- One profile fetched from the audience list. -/
structure Profile where
  id : String
  email : Option String
  firstName : Option String
  lastName : Option String
  created : SDate
  deriving DecidableEq, Repr

/-- The per-signup alert decision of the final route (and of the variant in
src/unnamed/part_001): some alert strictly after the signup date whose
product id is falsy (auto-match) or normalizes equal to the signup product
id. -/
def resolveAlertSent (alerts : List AlertSignal) (signup : Signup) : Bool :=
  alerts.any (fun a =>
    let afterSignup := jsDateGt (jsDateOf a.date) (jsDateOf signup.signupDate)
    if !afterSignup then false
    else if jsFalsyStr a.productId then true
    else normalizeProductId a.productId == normalizeProductId signup.productId)

/-- The per-signup alert decision of the variant in src/unnamed/part_001,
textually the same test as the final route. -/
def alertSentV1 (alerts : List AlertSignal) (signup : Signup) : Bool :=
  alerts.any (fun a =>
    let afterSignup := jsDateGt (jsDateOf a.date) (jsDateOf signup.signupDate)
    if !afterSignup then false
    else if jsFalsyStr a.productId then true
    else normalizeProductId a.productId == normalizeProductId signup.productId)

/-- The per-signup alert decision of the earlier variant in
src/unnamed/part_002: strict equality of the raw product ids and a
date strictly after the signup. -/
def alertSentV2 (alerts : List AlertSignal) (signup : Signup) : Bool :=
  alerts.any (fun a =>
    a.productId == signup.productId &&
    jsDateGt (jsDateOf a.date) (jsDateOf signup.signupDate))

/-- One row of the final response (the debug-only fields and the derived
string id, which no later stage reads, are not modelled). -/
structure SubscriberRecord where
  profileId : String
  email : String
  name : String
  productId : Option String
  productTitle : Option String
  productUrl : Option String
  variantId : Option String
  signupDate : SDate
  alertSent : Bool
  ordered : Bool
  inventory : Option Int
  sku : Option String
  shopifyCustomerId : Option String
  deriving DecidableEq, Repr

/-- `profile.attributes?.email || 'N/A'`. -/
def emailOf (p : Profile) : String :=
  match p.email with
  | some e => if e.isEmpty then "N/A" else e
  | none => "N/A"

/-- `[first_name, last_name].filter(Boolean).join(' ')`. -/
def nameOf (p : Profile) : String :=
  String.intercalate " "
    (([p.firstName, p.lastName].filterMap id).filter (fun s => !s.isEmpty))

/-- The record pushed for one signup of a profile. -/
def rowForSignup (env : Env) (p : Profile) (alerts : List AlertSignal)
    (signup : Signup) : SubscriberRecord :=
  let pd := getProductData env signup.productId signup.variantId
  { profileId := p.id
    email := emailOf p
    name := nameOf p
    productId := signup.productId
    productTitle := signup.productTitle
    productUrl := signup.productUrl
    variantId := signup.variantId
    signupDate := signup.signupDate
    alertSent := resolveAlertSent alerts signup
    ordered := checkIfOrdered env (emailOf p) signup.productId signup.signupDate
    inventory := pd.1
    sku := pd.2
    shopifyCustomerId := getShopifyCustomerId env (emailOf p) }

/-- The legacy fallback record pushed for a profile without signup events;
`profile.attributes?.created || null` is the identity on `SDate`. -/
def fallbackRow (env : Env) (p : Profile) : SubscriberRecord :=
  { profileId := p.id
    email := emailOf p
    name := nameOf p
    productId := none
    productTitle := none
    productUrl := none
    variantId := none
    signupDate := p.created
    alertSent := false
    ordered := false
    inventory := none
    sku := none
    shopifyCustomerId := getShopifyCustomerId env (emailOf p) }

/-- The loop body of `GET` for one profile: one row per signup, or exactly
the fallback row when the profile has no signup events. -/
def buildRowsForProfile (env : Env) (signupsFor : String → List Signup)
    (alertsFor : String → List AlertSignal) (p : Profile) : List SubscriberRecord :=
  let signups := signupsFor p.id
  let alerts := alertsFor p.id
  if signups.isEmpty then [fallbackRow env p]
  else signups.map (rowForSignup env p alerts)

/-- The unsorted subscriber list of `GET`: rows of each fetched profile in
fetch order. -/
def buildSubscribers (env : Env) (signupsFor : String → List Signup)
    (alertsFor : String → List AlertSignal) (profiles : List Profile) :
    List SubscriberRecord :=
  profiles.flatMap (buildRowsForProfile env signupsFor alertsFor)

/-- The sort key of the final comparator: `new Date(r.signupDate || 0)`, so
an absent date keys at the epoch and an unparseable one at `NaN`. -/
def recKey (r : SubscriberRecord) : Option Int := jsDateOf r.signupDate

/-- One comparator step of `subscribers.sort((a, b) => bDate - aDate)`: `a`
may stay before `b` unless the comparator is strictly positive; a `NaN`
comparator (either date invalid) keeps the original order. -/
def sortLe (a b : SubscriberRecord) : Bool :=
  match recKey b, recKey a with
  | some kb, some ka => kb ≤ ka
  | _, _ => true

/-- Stable insertion of one record into an already sorted suffix. -/
def ordIns (a : SubscriberRecord) : List SubscriberRecord → List SubscriberRecord
  | [] => [a]
  | b :: l => if sortLe a b then a :: b :: l else b :: ordIns a l

/-- The stable comparator sort of `Array.prototype.sort` modelled as stable
insertion sort. -/
def jsSortRecs : List SubscriberRecord → List SubscriberRecord
  | [] => []
  | a :: l => ordIns a (jsSortRecs l)

/-- The success payload of `GET`: the subscriber rows sorted newest first. -/
def subscribersResponse (env : Env) (signupsFor : String → List Signup)
    (alertsFor : String → List AlertSignal) (profiles : List Profile) :
    List SubscriberRecord :=
  jsSortRecs (buildSubscribers env signupsFor alertsFor profiles)

/-- An environment in which the commerce system is unconfigured. -/
def sampleEnv : Env :=
  { shopifyConfigured := false
    ordersFor := fun _ => none
    customersFor := fun _ => none
    productFor := fun _ => none }

/-- A sample fetched profile with no attributes beyond its id. -/
def sampleProfile : Profile :=
  { id := "p1", email := none, firstName := none, lastName := none, created := .absent }

/-- Claim C4: normalizeProductId maps an absent id to absent, cuts a string
containing the gid prefix down to the segment after its last slash, returns
any other nonempty string unchanged, and identifies
"gid://shopify/Product/123" with "123". -/
theorem normalizeProductId_spec (s t : String)
    (hg : strContains s "gid://" = true)
    (ht : t ≠ "")
    (hn : strContains t "gid://" = false) :
    normalizeProductId none = none ∧
    normalizeProductId (some s) = some (lastSeg s) ∧
    normalizeProductId (some t) = some t ∧
    normalizeProductId (some "gid://shopify/Product/123") = some "123" ∧
    normalizeProductId (some "123") = some "123" := by
  have hs : s.isEmpty = false := by
    by_cases h : s.isEmpty
    · rw [String.isEmpty_iff] at h
      subst h
      exact absurd hg (by decide)
    · simpa using h
  have ht' : t.isEmpty = false := by
    by_cases h : t.isEmpty
    · rw [String.isEmpty_iff] at h
      exact absurd h ht
    · simpa using h
  refine ⟨rfl, ?_, ?_, by decide, by decide⟩
  · simp [normalizeProductId, hs, hg]
  · simp [normalizeProductId, ht', hn]

/-- Witness for C4 at concrete identifiers. -/
theorem normalizeProductId_spec_witness :
    normalizeProductId none = none ∧
    normalizeProductId (some "gid://x/y/7") = some (lastSeg "gid://x/y/7") ∧
    normalizeProductId (some "42") = some "42" ∧
    normalizeProductId (some "gid://shopify/Product/123") = some "123" ∧
    normalizeProductId (some "123") = some "123" :=
  normalizeProductId_spec "gid://x/y/7" "42" (by decide) (by decide) (by decide)

/-- Claim C9 (amended): the per-record alert decision of the variant in
src/unnamed/part_001 agrees with the final route on every input. -/
theorem alertSentV1_eq_final (alerts : List AlertSignal) (signup : Signup) :
    alertSentV1 alerts signup = resolveAlertSent alerts signup := rfl

/-- Counterexample for C9 as stated: on an alert whose product id is the
gid form of the signup product id and which postdates the signup, the
variant in src/unnamed/part_002 answers false while the final route
answers true. -/
theorem alertSentV2_ne_final :
    alertSentV2 [{ productId := some "gid://shopify/Product/123", date := .parseable 5 }]
        { productId := some "123", productHandle := none, variantId := none,
          productTitle := none, productUrl := none, productImage := none,
          signupDate := .parseable 1 } = false ∧
    resolveAlertSent [{ productId := some "gid://shopify/Product/123", date := .parseable 5 }]
        { productId := some "123", productHandle := none, variantId := none,
          productTitle := none, productUrl := none, productImage := none,
          signupDate := .parseable 1 } = true := by
  constructor
  · decide
  · decide

/-- Claim C3: a fetched profile with zero signup events yields exactly one
record, with null product fields, false alertSent and ordered, and the
profile creation timestamp as the signup date, whatever its alert list. -/
theorem zero_signup_fallback (env : Env) (signupsFor : String → List Signup)
    (alertsFor : String → List AlertSignal) (p : Profile)
    (hs : signupsFor p.id = []) :
    buildRowsForProfile env signupsFor alertsFor p =
      [{ profileId := p.id
         email := emailOf p
         name := nameOf p
         productId := none
         productTitle := none
         productUrl := none
         variantId := none
         signupDate := p.created
         alertSent := false
         ordered := false
         inventory := none
         sku := none
         shopifyCustomerId := getShopifyCustomerId env (emailOf p) }] := by
  simp [buildRowsForProfile, hs, fallbackRow]

/-- Witness for C3 on a concrete profile with no signups and a nonempty
alert list. -/
theorem zero_signup_fallback_witness :
    buildRowsForProfile sampleEnv (fun _ => [])
        (fun _ => [{ productId := none, date := .parseable 3 }]) sampleProfile =
      [{ profileId := sampleProfile.id
         email := emailOf sampleProfile
         name := nameOf sampleProfile
         productId := none
         productTitle := none
         productUrl := none
         variantId := none
         signupDate := sampleProfile.created
         alertSent := false
         ordered := false
         inventory := none
         sku := none
         shopifyCustomerId := getShopifyCustomerId sampleEnv (emailOf sampleProfile) }] :=
  zero_signup_fallback sampleEnv (fun _ => [])
    (fun _ => [{ productId := none, date := .parseable 3 }]) sampleProfile rfl

/-- The eight phrases tested against the normalized subject. -/
def subjectPhrases : List String :=
  ["back in stock", "it's here", "ready to order", "now available",
   "in stock", "restock", "pre-order", "preorder"]

/-- The four phrases tested against the normalized preview. -/
def previewPhrases : List String :=
  ["back in stock", "now available", "in stock", "restock"]

/-- Quote normalization absorbs a later lower-casing pass: normalizing,
lower-casing, then normalizing again is the same as lower-casing then
normalizing once. -/
theorem normQChar_toLower_normQChar (c : Char) :
    normQChar (Char.toLower (normQChar c)) = normQChar (Char.toLower c) := by
  by_cases h1 : c = '‘' ∨ c = '’' ∨ c = '‚' ∨ c = '‛'
  · rcases h1 with h | h | h | h <;> subst h <;> decide
  · by_cases h2 : c = '“' ∨ c = '”' ∨ c = '„' ∨ c = '‟'
    · rcases h2 with h | h | h | h <;> subst h <;> decide
    · have hc : normQChar c = c := by simp [normQChar, h1, h2]
      rw [hc]

/-- String version of the absorption of quote normalization. -/
theorem normalizeQuotes_toLower_normalizeQuotes (s : String) :
    normalizeQuotes (jsToLower (normalizeQuotes s)) = normalizeQuotes (jsToLower s) := by
  simp only [normalizeQuotes, jsToLower, mapStr, List.map_map]
  exact congrArg String.mk
    (List.map_congr_left (fun c _ => normQChar_toLower_normQChar c))

/-- Claim C5: the restock classifier is exactly substring membership of the
fixed subject and preview phrase sets over the lower-cased,
quote-normalized inputs, and replacing curly quote glyphs by straight ones
in either input never changes its answer. -/
theorem isBisEmailSubject_spec (subject preview : String) :
    (isBisEmailSubject subject preview =
      (subjectPhrases.any
          (fun ph => strContains (normalizeQuotes (jsToLower subject)) ph) ||
       previewPhrases.any
          (fun ph => strContains (normalizeQuotes (jsToLower preview)) ph))) ∧
    isBisEmailSubject (normalizeQuotes subject) (normalizeQuotes preview) =
      isBisEmailSubject subject preview := by
  constructor
  · simp [isBisEmailSubject, subjectPhrases, previewPhrases, Bool.or_assoc]
  · simp only [isBisEmailSubject, normalizeQuotes_toLower_normalizeQuotes]

/-- Claim C1: for a signup with a parseable date and alerts with parseable
dates and well-formed product ids, alertSent is true iff some alert is
strictly later than the signup and either carries no product id or
normalizes to the same product id as the signup; in particular an alert at
or before the signup never counts. -/
theorem resolveAlertSent_iff (signup : Signup) (alerts : List AlertSignal) (t : Int)
    (hd : signup.signupDate = SDate.parseable t)
    (hw : ∀ a ∈ alerts, a.productId ≠ some "")
    (hp : ∀ a ∈ alerts, ∃ ta, a.date = SDate.parseable ta) :
    resolveAlertSent alerts signup = true ↔
      ∃ a ∈ alerts,
        (∃ ta, a.date = SDate.parseable ta ∧ t < ta) ∧
        (a.productId = none ∨
         normalizeProductId a.productId = normalizeProductId signup.productId) := by
  rw [resolveAlertSent, List.any_eq_true]
  refine exists_congr fun a => and_congr_right fun ha => ?_
  obtain ⟨ta, hta⟩ := hp a ha
  have hwa := hw a ha
  rw [hta, hd]
  simp only [jsDateOf, jsDateGt]
  by_cases hlt : t < ta
  · have hdec : decide (t < ta) = true := decide_eq_true hlt
    simp only [hdec]
    have hleft : (∃ ta', SDate.parseable ta = SDate.parseable ta' ∧ t < ta') := ⟨ta, rfl, hlt⟩
    simp only [hleft, true_and, Bool.not_true, Bool.false_eq_true, if_false]
    cases hpid : a.productId with
    | none => simp [jsFalsyStr]
    | some s =>
      have hsne : s ≠ "" := by
        intro h
        exact hwa (by rw [hpid, h])
      have hse : s.isEmpty = false := by
        by_cases h : s.isEmpty
        · rw [String.isEmpty_iff] at h
          exact absurd h hsne
        · simpa using h
      simp [jsFalsyStr, hse, beq_iff_eq]
  · have hdec : decide (t < ta) = false := decide_eq_false hlt
    simp only [hdec]
    simp only [Bool.not_false, if_true, Bool.false_eq_true, false_iff]
    intro hcontra
    obtain ⟨⟨ta', hta', hlt'⟩, _⟩ := hcontra
    cases hta'
    exact hlt hlt'

/-- Witness for C1: a no-product-id alert strictly after the signup makes
alertSent true for a concrete signup. -/
theorem resolveAlertSent_iff_witness :
    resolveAlertSent [{ productId := none, date := .parseable 5 }]
        { productId := some "123", productHandle := none, variantId := none,
          productTitle := none, productUrl := none, productImage := none,
          signupDate := .parseable 1 } = true ↔
      ∃ a ∈ [({ productId := none, date := .parseable 5 } : AlertSignal)],
        (∃ ta, a.date = SDate.parseable ta ∧ (1 : Int) < ta) ∧
        (a.productId = none ∨
         normalizeProductId a.productId =
           normalizeProductId (some "123")) :=
  resolveAlertSent_iff
    { productId := some "123", productHandle := none, variantId := none,
      productTitle := none, productUrl := none, productImage := none,
      signupDate := .parseable 1 }
    [{ productId := none, date := .parseable 5 }] 1 rfl
    (by intro a ha; simp at ha; subst ha; decide)
    (by intro a ha; simp at ha; subst ha; exact ⟨5, rfl⟩)

/-- For a nonempty id, normalizeProductId is exactly the gid strip. -/
theorem normalizeProductId_eq_stripGid (pid : String) (h : pid ≠ "") :
    normalizeProductId (some pid) = some (stripGid pid) := by
  have he : pid.isEmpty = false := by
    by_cases hp : pid.isEmpty
    · rw [String.isEmpty_iff] at hp
      exact absurd hp h
    · simpa using hp
  by_cases hg : strContains pid "gid://"
  · simp [normalizeProductId, stripGid, he, hg]
  · simp [normalizeProductId, stripGid, he, hg]

/-- Claim C6: with configuration, a nonempty email and product id, a
successful order search and a parseable signup timestamp, the ordered
check is true exactly when some order created at or after the signup
timestamp has a line item whose id equals the normalized signup product
id. -/
theorem checkIfOrdered_iff (env : Env) (email pid : String) (st : Int)
    (orders : List Order)
    (hcfg : env.shopifyConfigured = true)
    (he : email ≠ "")
    (hpid : pid ≠ "")
    (hord : env.ordersFor email = some orders) :
    checkIfOrdered env email (some pid) (SDate.parseable st) = true ↔
      ∃ o ∈ orders, st ≤ o.createdAt ∧
        ∃ it ∈ o.lineItems, some it.productId = normalizeProductId (some pid) := by
  have hee : email.isEmpty = false := by
    by_cases h : email.isEmpty
    · rw [String.isEmpty_iff] at h
      exact absurd h he
    · simpa using h
  have hpe : pid.isEmpty = false := by
    by_cases h : pid.isEmpty
    · rw [String.isEmpty_iff] at h
      exact absurd h hpid
    · simpa using h
  rw [normalizeProductId_eq_stripGid pid hpid]
  rw [checkIfOrdered]
  simp only [hcfg, hee, jsFalsyStr, hpe, Bool.not_true, Bool.false_or, Bool.or_false,
    Bool.or_self, if_false, hord, Bool.not_false]
  rw [if_neg (by simp)]
  rw [List.any_eq_true]
  refine exists_congr fun o => and_congr_right fun _ => ?_
  rw [Bool.and_eq_true, List.any_eq_true]
  constructor
  · intro ⟨hkeep, it, hit, hbeq⟩
    refine ⟨?_, it, hit, ?_⟩
    · simp only [jsDateLt, Bool.not_eq_true', decide_eq_false_iff_not, Int.not_lt] at hkeep
      exact hkeep
    · rw [Option.some_inj]
      exact eq_of_beq hbeq
  · intro ⟨hle, it, hit, heq⟩
    refine ⟨?_, it, hit, ?_⟩
    · simp only [jsDateLt, Bool.not_eq_true', decide_eq_false_iff_not, Int.not_lt]
      exact hle
    · rw [Option.some_inj] at heq
      exact beq_of_eq heq

/-- Witness for C6: one order at the signup instant containing the product. -/
theorem checkIfOrdered_iff_witness :
    checkIfOrdered
        { shopifyConfigured := true
          ordersFor := fun _ => some [{ createdAt := 4, lineItems := [{ productId := "123" }] }]
          customersFor := fun _ => none
          productFor := fun _ => none }
        "a@b.c" (some "gid://shopify/Product/123") (SDate.parseable 4) = true ↔
      ∃ o ∈ [({ createdAt := 4, lineItems := [{ productId := "123" }] } : Order)],
        (4 : Int) ≤ o.createdAt ∧
        ∃ it ∈ o.lineItems,
          some it.productId = normalizeProductId (some "gid://shopify/Product/123") :=
  checkIfOrdered_iff
    { shopifyConfigured := true
      ordersFor := fun _ => some [{ createdAt := 4, lineItems := [{ productId := "123" }] }]
      customersFor := fun _ => none
      productFor := fun _ => none }
    "a@b.c" "gid://shopify/Product/123" 4
    [{ createdAt := 4, lineItems := [{ productId := "123" }] }]
    rfl (by decide) (by decide) rfl

/-- Null out the two enrichment fields of a record. -/
def eraseInvSku (r : SubscriberRecord) : SubscriberRecord :=
  { r with inventory := none, sku := none }

/-- When every product lookup fails, getProductData degrades to nulls. -/
theorem getProductData_of_fail (env : Env) (hfail : ∀ n, env.productFor n = none)
    (productId variantId : Option String) :
    getProductData env productId variantId = (none, none) := by
  rw [getProductData.eq_def]
  by_cases hc : (!env.shopifyConfigured || jsFalsyStr productId) = true
  · simp [hc]
  · rw [if_neg hc]
    cases productId with
    | none => rfl
    | some pid => simp [hfail]

/-- checkIfOrdered ignores the product lookup oracle. -/
theorem checkIfOrdered_congr (env envOk : Env)
    (hcfg : envOk.shopifyConfigured = env.shopifyConfigured)
    (hord : envOk.ordersFor = env.ordersFor)
    (email : String) (productId : Option String) (signupDate : SDate) :
    checkIfOrdered envOk email productId signupDate =
      checkIfOrdered env email productId signupDate := by
  rw [checkIfOrdered.eq_def, checkIfOrdered.eq_def, hcfg, hord]

/-- getShopifyCustomerId ignores the product lookup oracle. -/
theorem getShopifyCustomerId_congr (env envOk : Env)
    (hcfg : envOk.shopifyConfigured = env.shopifyConfigured)
    (hcust : envOk.customersFor = env.customersFor)
    (email : String) :
    getShopifyCustomerId envOk email = getShopifyCustomerId env email := by
  rw [getShopifyCustomerId, getShopifyCustomerId, hcfg, hcust]

/-- Claim C7: if every inventory/sku lookup fails while the rest of the
environment is unchanged, each profile still emits exactly the same
records, one per signup (or one fallback), differing only in that
inventory and sku are null; no record is dropped. -/
theorem enrichment_failure_degrades (env envOk : Env)
    (hcfg : envOk.shopifyConfigured = env.shopifyConfigured)
    (hord : envOk.ordersFor = env.ordersFor)
    (hcust : envOk.customersFor = env.customersFor)
    (hfail : ∀ n, env.productFor n = none)
    (signupsFor : String → List Signup)
    (alertsFor : String → List AlertSignal) (p : Profile) :
    buildRowsForProfile env signupsFor alertsFor p =
      (buildRowsForProfile envOk signupsFor alertsFor p).map eraseInvSku ∧
    (buildRowsForProfile env signupsFor alertsFor p).length =
      (if (signupsFor p.id).isEmpty then 1 else (signupsFor p.id).length) ∧
    ∀ r ∈ buildRowsForProfile env signupsFor alertsFor p,
      r.inventory = none ∧ r.sku = none := by
  have hrow : ∀ signup, rowForSignup env p (alertsFor p.id) signup =
      eraseInvSku (rowForSignup envOk p (alertsFor p.id) signup) := by
    intro signup
    rw [rowForSignup, rowForSignup, eraseInvSku]
    rw [getProductData_of_fail env hfail]
    rw [checkIfOrdered_congr env envOk hcfg hord]
    rw [getShopifyCustomerId_congr env envOk hcfg hcust]
  have hfall : fallbackRow env p = eraseInvSku (fallbackRow envOk p) := by
    rw [fallbackRow, fallbackRow, eraseInvSku]
    rw [getShopifyCustomerId_congr env envOk hcfg hcust]
  have hmain : buildRowsForProfile env signupsFor alertsFor p =
      (buildRowsForProfile envOk signupsFor alertsFor p).map eraseInvSku := by
    rw [buildRowsForProfile, buildRowsForProfile]
    by_cases hs : (signupsFor p.id).isEmpty
    · simp [hs, hfall]
    · rw [if_neg hs, if_neg hs, List.map_map]
      exact List.map_congr_left (fun signup _ => hrow signup)
  refine ⟨hmain, ?_, ?_⟩
  · rw [buildRowsForProfile]
    by_cases hs : (signupsFor p.id).isEmpty
    · simp [hs]
    · simp [hs]
  · intro r hr
    rw [hmain] at hr
    obtain ⟨r0, _, hr0⟩ := List.mem_map.mp hr
    rw [← hr0]
    exact ⟨rfl, rfl⟩

/-- Witness for C7: a failing product oracle next to a working one on one
profile with one signup. -/
theorem enrichment_failure_degrades_witness :
    buildRowsForProfile
        { shopifyConfigured := true, ordersFor := fun _ => none,
          customersFor := fun _ => none, productFor := fun _ => none }
        (fun _ => [{ productId := some "9", productHandle := none, variantId := none,
                     productTitle := none, productUrl := none, productImage := none,
                     signupDate := .parseable 2 }])
        (fun _ => []) sampleProfile =
      (buildRowsForProfile
          { shopifyConfigured := true, ordersFor := fun _ => none,
            customersFor := fun _ => none,
            productFor := fun _ => some { variants := [{ id := "1", sku := some "SK", inventoryQuantity := some 3 }] } }
          (fun _ => [{ productId := some "9", productHandle := none, variantId := none,
                       productTitle := none, productUrl := none, productImage := none,
                       signupDate := .parseable 2 }])
          (fun _ => []) sampleProfile).map eraseInvSku ∧
    (buildRowsForProfile
        { shopifyConfigured := true, ordersFor := fun _ => none,
          customersFor := fun _ => none, productFor := fun _ => none }
        (fun _ => [{ productId := some "9", productHandle := none, variantId := none,
                     productTitle := none, productUrl := none, productImage := none,
                     signupDate := .parseable 2 }])
        (fun _ => []) sampleProfile).length =
      (if ([({ productId := some "9", productHandle := none, variantId := none,
               productTitle := none, productUrl := none, productImage := none,
               signupDate := .parseable 2 } : Signup)]).isEmpty then 1
       else ([({ productId := some "9", productHandle := none, variantId := none,
                 productTitle := none, productUrl := none, productImage := none,
                 signupDate := .parseable 2 } : Signup)]).length) ∧
    ∀ r ∈ buildRowsForProfile
        { shopifyConfigured := true, ordersFor := fun _ => none,
          customersFor := fun _ => none, productFor := fun _ => none }
        (fun _ => [{ productId := some "9", productHandle := none, variantId := none,
                     productTitle := none, productUrl := none, productImage := none,
                     signupDate := .parseable 2 }])
        (fun _ => []) sampleProfile,
      r.inventory = none ∧ r.sku = none :=
  enrichment_failure_degrades
    { shopifyConfigured := true, ordersFor := fun _ => none,
      customersFor := fun _ => none, productFor := fun _ => none }
    { shopifyConfigured := true, ordersFor := fun _ => none,
      customersFor := fun _ => none,
      productFor := fun _ => some { variants := [{ id := "1", sku := some "SK", inventoryQuantity := some 3 }] } }
    rfl rfl rfl (fun _ => rfl)
    (fun _ => [{ productId := some "9", productHandle := none, variantId := none,
                 productTitle := none, productUrl := none, productImage := none,
                 signupDate := .parseable 2 }])
    (fun _ => []) sampleProfile

/-- The sku preference as the claim words it: the sku of the matching
variant when a matching variant exists, else the sku of the first variant,
else unknown. -/
def specSkuPreference (variants : List Variant) (variantId : Option String) :
    Option String :=
  match variantId with
  | some v =>
    match variants.find? (fun x => x.id == v) with
    | some m => m.sku
    | none => variants.head?.bind Variant.sku
  | none => variants.head?.bind Variant.sku

/-- The sku choice the code actually makes: the first truthy (nonempty,
non-null) value along matching-variant sku then first-variant sku, else
null; the matching variant is only consulted for a truthy variant id. -/
def truthySkuChoice (variants : List Variant) (nv : Option String) : Option String :=
  skuChain
    (match nv with
     | some v =>
       if v.isEmpty then none
       else (variants.find? (fun x => x.id == v)).bind Variant.sku
     | none => none)
    (variants.head?.bind Variant.sku)

/-- A product whose matching variant has an empty sku. -/
def payloadC8 : ProductPayload :=
  { variants := [{ id := "1", sku := some "A", inventoryQuantity := some 3 },
                 { id := "2", sku := some "", inventoryQuantity := some 4 }] }

/-- An environment serving that product for every id. -/
def envC8 : Env :=
  { shopifyConfigured := true
    ordersFor := fun _ => none
    customersFor := fun _ => none
    productFor := fun _ => some payloadC8 }

/-- Counterexample for C8 as stated: a matching variant exists with sku "",
so the stated preference order demands "", but the code falls through the
truthiness chain to the first variant and returns "A". -/
theorem getProductData_sku_counterexample :
    (getProductData envC8 (some "10") (some "2")).2 = some "A" ∧
    specSkuPreference payloadC8.variants (some "2") = some "" ∧
    (getProductData envC8 (some "10") (some "2")).2 ≠
      specSkuPreference payloadC8.variants (some "2") := by
  refine ⟨by decide, by decide, by decide⟩

/-- Summing the per-variant quantities with a left fold from any start. -/
theorem foldl_add_eq_sum_map (f : Variant → Int) (l : List Variant) :
    ∀ init : Int, l.foldl (fun acc v => acc + f v) init = init + (l.map f).sum := by
  induction l with
  | nil => intro init; simp
  | cons v t ih => intro init; simp [ih, add_assoc]

/-- Claim C8 (amended): on a successfully fetched product the inventory is
the sum of the per-variant quantities (falsy quantities as zero) and the
sku is the first truthy value along matching-variant sku then
first-variant sku, else unknown. -/
theorem getProductData_success (env : Env) (pid : String) (vid : Option String)
    (payload : ProductPayload)
    (hcfg : env.shopifyConfigured = true)
    (hpid : pid ≠ "")
    (hfetch : env.productFor (stripGid pid) = some payload) :
    getProductData env (some pid) vid =
      (some ((payload.variants.map (fun v => v.inventoryQuantity.getD 0)).sum),
       truthySkuChoice payload.variants (jsStripVariantId vid)) := by
  have hpe : pid.isEmpty = false := by
    by_cases h : pid.isEmpty
    · rw [String.isEmpty_iff] at h
      exact absurd h hpid
    · simpa using h
  rw [getProductData.eq_def]
  rw [if_neg (by simp [hcfg, jsFalsyStr, hpe])]
  simp only
  rw [hfetch]
  simp only
  rw [Prod.mk.injEq]
  constructor
  · rw [foldl_add_eq_sum_map (fun v => v.inventoryQuantity.getD 0) payload.variants 0]
    rw [zero_add]
  · rw [truthySkuChoice.eq_def]
    cases hv : jsStripVariantId vid with
    | none => simp [jsFalsyStr]
    | some v =>
      by_cases hve : v.isEmpty
      · simp [jsFalsyStr, hve]
      · simp [jsFalsyStr, hve]

/-- Witness for C8 (amended) on the concrete product above: inventory sums
to 7 and the empty matching sku falls through to "A". -/
theorem getProductData_success_witness :
    getProductData envC8 (some "10") (some "2") =
      (some ((payloadC8.variants.map (fun v => v.inventoryQuantity.getD 0)).sum),
       truthySkuChoice payloadC8.variants (jsStripVariantId (some "2"))) :=
  getProductData_success envC8 "10" (some "2") payloadC8 rfl (by decide) rfl

/-- The sort key the claim describes: the parsed timestamp, with both an
absent and an unparseable date standing in for the epoch start. -/
def specSortKey (r : SubscriberRecord) : Int :=
  match r.signupDate with
  | .parseable t => t
  | _ => 0

/-- Inserting keeps exactly the old elements plus the new one. -/
theorem ordIns_perm (a : SubscriberRecord) (l : List SubscriberRecord) :
    (ordIns a l).Perm (a :: l) := by
  induction l with
  | nil => exact List.Perm.refl _
  | cons b t ih =>
    rw [ordIns]
    by_cases h : sortLe a b
    · rw [if_pos h]
    · rw [if_neg h]
      exact (ih.cons b).trans (List.Perm.swap a b t)

/-- The modelled sort permutes its input. -/
theorem jsSortRecs_perm (l : List SubscriberRecord) : (jsSortRecs l).Perm l := by
  induction l with
  | nil => exact List.Perm.refl _
  | cons a t ih => exact (ordIns_perm a (jsSortRecs t)).trans (ih.cons a)

/-- A record whose date is not unparseable keys at its spec sort key. -/
theorem recKey_eq_spec (r : SubscriberRecord) (h : r.signupDate ≠ SDate.unparseable) :
    recKey r = some (specSortKey r) := by
  cases hd : r.signupDate with
  | absent => simp [recKey, jsDateOf, specSortKey, hd]
  | parseable t => simp [recKey, jsDateOf, specSortKey, hd]
  | unparseable => exact absurd hd h

/-- Transitivity of the comparator relation on records with valid keys. -/
theorem sortLe_trans (a b c : SubscriberRecord)
    (ha : (recKey a).isSome) (hb : (recKey b).isSome) (hc : (recKey c).isSome)
    (hab : sortLe a b = true) (hbc : sortLe b c = true) : sortLe a c = true := by
  obtain ⟨ka, hka⟩ := Option.isSome_iff_exists.mp ha
  obtain ⟨kb, hkb⟩ := Option.isSome_iff_exists.mp hb
  obtain ⟨kc, hkc⟩ := Option.isSome_iff_exists.mp hc
  rw [sortLe, hka, hkb] at hab
  rw [sortLe, hkb, hkc] at hbc
  rw [sortLe, hka, hkc]
  simp only [decide_eq_true_eq] at hab hbc ⊢
  exact le_trans hbc hab

/-- Totality of the comparator relation on records with valid keys. -/
theorem sortLe_of_not (a b : SubscriberRecord)
    (ha : (recKey a).isSome) (hb : (recKey b).isSome)
    (h : ¬sortLe a b = true) : sortLe b a = true := by
  obtain ⟨ka, hka⟩ := Option.isSome_iff_exists.mp ha
  obtain ⟨kb, hkb⟩ := Option.isSome_iff_exists.mp hb
  rw [sortLe, hka, hkb] at h
  rw [sortLe, hkb, hka]
  simp only [decide_eq_true_eq] at h ⊢
  exact le_of_not_le h

/-- Inserting into a sorted list of valid-key records keeps it sorted. -/
theorem pairwise_ordIns (a : SubscriberRecord) (l : List SubscriberRecord)
    (ha : (recKey a).isSome) (hl : ∀ x ∈ l, (recKey x).isSome)
    (S : l.Pairwise (fun x y => sortLe x y = true)) :
    (ordIns a l).Pairwise (fun x y => sortLe x y = true) := by
  induction l with
  | nil => simp [ordIns]
  | cons b t ih =>
    rw [List.pairwise_cons] at S
    obtain ⟨hbt, St⟩ := S
    have hbs : (recKey b).isSome := hl b (List.mem_cons_self b t)
    have hts : ∀ x ∈ t, (recKey x).isSome := fun x hx => hl x (List.mem_cons_of_mem b hx)
    rw [ordIns]
    by_cases h : sortLe a b
    · rw [if_pos h]
      rw [List.pairwise_cons]
      refine ⟨?_, List.pairwise_cons.mpr ⟨hbt, St⟩⟩
      intro x hx
      rcases List.mem_cons.mp hx with hxb | hxt
      · rw [hxb]; exact h
      · exact sortLe_trans a b x ha hbs (hts x hxt) h (hbt x hxt)
    · rw [if_neg h]
      rw [List.pairwise_cons]
      refine ⟨?_, ih hts St⟩
      intro x hx
      have hx' : x ∈ a :: t := (ordIns_perm a t).mem_iff.mp hx
      rcases List.mem_cons.mp hx' with hxa | hxt
      · rw [hxa]; exact sortLe_of_not a b ha hbs h
      · exact hbt x hxt

/-- The modelled sort yields a comparator-sorted list when every record
has a valid key. -/
theorem pairwise_jsSortRecs (l : List SubscriberRecord)
    (hl : ∀ x ∈ l, (recKey x).isSome) :
    (jsSortRecs l).Pairwise (fun x y => sortLe x y = true) := by
  induction l with
  | nil => simp [jsSortRecs]
  | cons a t ih =>
    have hts : ∀ x ∈ t, (recKey x).isSome := fun x hx => hl x (List.mem_cons_of_mem a hx)
    have hsort : ∀ x ∈ jsSortRecs t, (recKey x).isSome :=
      fun x hx => hts x ((jsSortRecs_perm t).mem_iff.mp hx)
    exact pairwise_ordIns a (jsSortRecs t) (hl a (List.mem_cons_self a t)) hsort (ih hts)

/-- Claim C2 (amended): when no produced record carries an unparseable
signup date, the response is a permutation of the built rows ordered by
signup timestamp descending with absent dates keyed at the epoch. -/
theorem response_sorted (env : Env) (signupsFor : String → List Signup)
    (alertsFor : String → List AlertSignal) (profiles : List Profile)
    (h : ∀ r ∈ buildSubscribers env signupsFor alertsFor profiles,
      r.signupDate ≠ SDate.unparseable) :
    (subscribersResponse env signupsFor alertsFor profiles).Pairwise
      (fun a b => specSortKey b ≤ specSortKey a) ∧
    (subscribersResponse env signupsFor alertsFor profiles).Perm
      (buildSubscribers env signupsFor alertsFor profiles) := by
  have hkey : ∀ x ∈ buildSubscribers env signupsFor alertsFor profiles,
      recKey x = some (specSortKey x) := fun x hx => recKey_eq_spec x (h x hx)
  have hsome : ∀ x ∈ buildSubscribers env signupsFor alertsFor profiles,
      (recKey x).isSome := by
    intro x hx
    rw [hkey x hx]
    rfl
  have hperm : (subscribersResponse env signupsFor alertsFor profiles).Perm
      (buildSubscribers env signupsFor alertsFor profiles) := jsSortRecs_perm _
  refine ⟨?_, hperm⟩
  have hp := pairwise_jsSortRecs (buildSubscribers env signupsFor alertsFor profiles) hsome
  refine hp.imp_of_mem ?_
  intro a b hma hmb hab
  have hka := hkey a (hperm.mem_iff.mp hma)
  have hkb := hkey b (hperm.mem_iff.mp hmb)
  rw [sortLe, hka, hkb] at hab
  simpa using hab

/-- A profile whose only signup has an unparseable date string. -/
def profU : Profile :=
  { id := "u", email := none, firstName := none, lastName := none, created := .absent }

/-- A profile whose only signup parses to timestamp 5. -/
def profA : Profile :=
  { id := "a", email := none, firstName := none, lastName := none, created := .absent }

/-- The signup index of the C2 counterexample run. -/
def cSignupsFor : String → List Signup := fun i =>
  if i = "u" then
    [{ productId := none, productHandle := none, variantId := none,
       productTitle := none, productUrl := none, productImage := none,
       signupDate := .unparseable }]
  else
    [{ productId := none, productHandle := none, variantId := none,
       productTitle := none, productUrl := none, productImage := none,
       signupDate := .parseable 5 }]

/-- Counterexample for C2 as stated: the run puts the unparseable-date
record first, ahead of a record timestamped after the epoch, because its
NaN comparator keeps the original order instead of keying it at the
epoch. -/
theorem sort_unparseable_counterexample :
    ¬ (subscribersResponse sampleEnv cSignupsFor (fun _ => []) [profU, profA]).Pairwise
        (fun a b => specSortKey b ≤ specSortKey a) ∧
    (subscribersResponse sampleEnv cSignupsFor (fun _ => []) [profU, profA]).map
        (fun r => r.signupDate) = [SDate.unparseable, SDate.parseable 5] := by
  constructor
  · decide
  · decide

/-- Witness for C2 (amended) on a two-profile run with parseable dates
fetched oldest first. -/
theorem response_sorted_witness :
    (subscribersResponse sampleEnv
        (fun i =>
          if i = "u" then
            [{ productId := none, productHandle := none, variantId := none,
               productTitle := none, productUrl := none, productImage := none,
               signupDate := .parseable 1 }]
          else
            [{ productId := none, productHandle := none, variantId := none,
               productTitle := none, productUrl := none, productImage := none,
               signupDate := .parseable 5 }])
        (fun _ => []) [profU, profA]).Pairwise
      (fun a b => specSortKey b ≤ specSortKey a) ∧
    (subscribersResponse sampleEnv
        (fun i =>
          if i = "u" then
            [{ productId := none, productHandle := none, variantId := none,
               productTitle := none, productUrl := none, productImage := none,
               signupDate := .parseable 1 }]
          else
            [{ productId := none, productHandle := none, variantId := none,
               productTitle := none, productUrl := none, productImage := none,
               signupDate := .parseable 5 }])
        (fun _ => []) [profU, profA]).Perm
      (buildSubscribers sampleEnv
        (fun i =>
          if i = "u" then
            [{ productId := none, productHandle := none, variantId := none,
               productTitle := none, productUrl := none, productImage := none,
               signupDate := .parseable 1 }]
          else
            [{ productId := none, productHandle := none, variantId := none,
               productTitle := none, productUrl := none, productImage := none,
               signupDate := .parseable 5 }])
        (fun _ => []) [profU, profA]) :=
  response_sorted sampleEnv
    (fun i =>
      if i = "u" then
        [{ productId := none, productHandle := none, variantId := none,
           productTitle := none, productUrl := none, productImage := none,
           signupDate := .parseable 1 }]
      else
        [{ productId := none, productHandle := none, variantId := none,
           productTitle := none, productUrl := none, productImage := none,
           signupDate := .parseable 5 }])
    (fun _ => []) [profU, profA] (by decide)

/-- Every row built for a profile carries that profile id. -/
theorem rows_profileId (env : Env) (signupsFor : String → List Signup)
    (alertsFor : String → List AlertSignal) (p : Profile) :
    ∀ r ∈ buildRowsForProfile env signupsFor alertsFor p, r.profileId = p.id := by
  intro r hr
  rw [buildRowsForProfile] at hr
  by_cases hs : (signupsFor p.id).isEmpty
  · rw [if_pos hs] at hr
    simp only [List.mem_singleton] at hr
    rw [hr]
    rfl
  · rw [if_neg hs] at hr
    obtain ⟨sg, _, hsg⟩ := List.mem_map.mp hr
    rw [← hsg]
    rfl

/-- Claim C10: every record of the response belongs to a fetched profile;
grouped signups of subscribers outside the fetched list never surface. -/
theorem response_profileIds_fetched (env : Env) (signupsFor : String → List Signup)
    (alertsFor : String → List AlertSignal) (profiles : List Profile)
    (r : SubscriberRecord)
    (hr : r ∈ subscribersResponse env signupsFor alertsFor profiles) :
    r.profileId ∈ profiles.map Profile.id := by
  have hr' : r ∈ buildSubscribers env signupsFor alertsFor profiles :=
    (jsSortRecs_perm _).mem_iff.mp hr
  rw [buildSubscribers] at hr'
  obtain ⟨p, hp, hrp⟩ := List.mem_flatMap.mp hr'
  rw [List.mem_map]
  exact ⟨p, hp, (rows_profileId env signupsFor alertsFor p r hrp).symm⟩

/-- Witness for C10: the single record of a one-profile run names that
profile even though another subscriber has grouped signups. -/
theorem response_profileIds_fetched_witness :
    (fallbackRow sampleEnv sampleProfile).profileId ∈ [sampleProfile].map Profile.id :=
  response_profileIds_fetched sampleEnv
    (fun i =>
      if i = "ghost" then
        [{ productId := some "7", productHandle := none, variantId := none,
           productTitle := none, productUrl := none, productImage := none,
           signupDate := .parseable 1 }]
      else [])
    (fun _ => []) [sampleProfile] (fallbackRow sampleEnv sampleProfile) (by decide)
